import Mathlib

/-!
Shallow embedding of the prompt-enhancer application (src/App.tsx,
src/services/geminiService.ts, src/types.ts).

The React component state is modelled as an explicit record `AppModel`;
each event handler becomes a pure state-transition function.  Results of
the asynchronous browser / network effects (file reads, the generative
model's raw reply) are passed in as explicit parameters, since they are
external inputs to the code under study.  JavaScript values that may be
`undefined` at runtime are modelled as `Option`.
-/

namespace Enhancer

/-! ## Data model (src/types.ts) -/

/-- enum AppState (src/types.ts). -/
inductive AppState where
  | INITIAL
  | GENERATING_DESCRIPTION
  | GENERATING_QUESTIONS
  | ASKING_QUESTIONS
  | GENERATING_ENHANCEMENT
  | SHOWING_RESULTS
  | ERROR
  | GENERATING_MAGIC_PROMPT
  | GENERATING_COPY_PROMPT
  | GENERATING_STYLE_INFLUENCE_PROMPT
  | GENERATING_REFINEMENT
deriving Repr, DecidableEq

/-- enum OutputType (src/types.ts). -/
inductive OutputType where
  | RASTER_PROMPT
deriving Repr, DecidableEq

/-- interface QuestionAnswer (src/types.ts). -/
structure QuestionAnswer where
  id : String
  questionText : String
  fullQuestionPrompt : String
  answer : String
  options : List String
  selectedOptions : List String
deriving Repr, DecidableEq

/-- interface EnhancedPromptResult (src/types.ts).  The interface declares
`enhancedPrompt` and `negativePrompt` as `string`, but the parsing code
copies whatever JavaScript value `JSON.parse` produced for those keys, so at
runtime the fields can be `undefined`; they are therefore `Option String`
here. -/
structure EnhancedPromptResult where
  enhancedPrompt : Option String
  negativePrompt : Option String
  suggestions : List String
  outputTypeUsed : OutputType
deriving Repr, DecidableEq

/-- interface ReferenceImage (src/types.ts). -/
structure ReferenceImage where
  base64 : String
  mimeType : String
deriving Repr, DecidableEq

/-- The data the component reads from a picked file: declared name, declared
MIME type, and byte size (src/App.tsx uses file.name, file.type, file.size). -/
structure JsFile where
  name : String
  type : String
  size : Nat
deriving Repr, DecidableEq

/-- The React component state of App (src/App.tsx, useState hooks). -/
structure AppModel where
  appState : AppState
  basicPrompt : String
  questionAnswers : List QuestionAnswer
  enhancedResult : Option EnhancedPromptResult
  error : Option String
  copiedEnhancedPrompt : Bool
  copiedNegativePrompt : Bool
  copiedSuggestionIndex : Option Nat
  subjectReferenceImageFile : Option JsFile
  subjectReferenceImagePreview : Option String
  styleReferenceImageFile : Option JsFile
  styleReferenceImagePreview : Option String
  outputAspectRatio : String
  outputCustomWidth : String
  outputCustomHeight : String
  isEditingEnhancedPrompt : Bool
  editedEnhancedPromptText : String
deriving Repr, DecidableEq

/-! ## Constants (src/App.tsx lines 17-20) -/

def MAX_IMAGE_SIZE_MB : Nat := 5

def ALLOWED_IMAGE_TYPES : List String := ["image/jpeg", "image/png", "image/webp"]

def IPHONE_14_WALLPAPER_OPTION_VALUE : String := "iphone_14_14pro_wallpaper"

def NUMBER_OF_QUESTIONS_TO_ASK : Nat := 11

/-! ## Form/upload controller (src/App.tsx handleImageUpload, clearReferenceImage) -/

/-- Which image slot an upload / clear action targets. -/
inductive ImageSlot where
  | subject
  | style
deriving Repr, DecidableEq

/-- Clear one image slot (file handle and preview). -/
def clearSlot (slot : ImageSlot) (s : AppModel) : AppModel :=
  match slot with
  | .subject => { s with subjectReferenceImageFile := none, subjectReferenceImagePreview := none }
  | .style => { s with styleReferenceImageFile := none, styleReferenceImagePreview := none }

/-- Store a validated file and its preview into one image slot. -/
def setSlot (slot : ImageSlot) (f : JsFile) (preview : String) (s : AppModel) : AppModel :=
  match slot with
  | .subject => { s with subjectReferenceImageFile := some f, subjectReferenceImagePreview := some preview }
  | .style => { s with styleReferenceImageFile := some f, styleReferenceImagePreview := some preview }

/-- The format-rejection message of handleImageUpload (line 65). -/
def invalidFormatMsg (fileName : String) : String :=
  s!"Nieprawidłowy format pliku ({fileName}). Dozwolone formaty: JPG, PNG, WEBP."

/-- The size-rejection message of handleImageUpload (line 74). -/
def tooLargeMsg (fileName : String) : String :=
  let m := MAX_IMAGE_SIZE_MB
  s!"Plik {fileName} jest zbyt duży. Maksymalny rozmiar to {m}MB."

/-- handleImageUpload (src/App.tsx lines 61-95).  `file` is
event.target.files?.[0]; `readerResult` is the data URL the FileReader
produces for the file on the success path. -/
def handleImageUpload (file : Option JsFile) (readerResult : String)
    (slot : ImageSlot) (s : AppModel) : AppModel :=
  match file with
  | none => s
  | some f =>
    if ¬ ALLOWED_IMAGE_TYPES.contains f.type then
      clearSlot slot { s with error := some (invalidFormatMsg f.name) }
    else if f.size > MAX_IMAGE_SIZE_MB * 1024 * 1024 then
      clearSlot slot { s with error := some (tooLargeMsg f.name) }
    else
      setSlot slot f readerResult { s with error := none }

/-- The file handle currently held by a slot. -/
def slotFile (slot : ImageSlot) (s : AppModel) : Option JsFile :=
  match slot with
  | .subject => s.subjectReferenceImageFile
  | .style => s.styleReferenceImageFile

/-- The preview currently held by a slot. -/
def slotPreview (slot : ImageSlot) (s : AppModel) : Option String :=
  match slot with
  | .subject => s.subjectReferenceImagePreview
  | .style => s.styleReferenceImagePreview

/-- clearReferenceImage (src/App.tsx lines 97-108): clears the slot and any
outstanding validation message. -/
def clearReferenceImage (slot : ImageSlot) (s : AppModel) : AppModel :=
  { clearSlot slot s with error := none }

/-! ## Q and A editing (src/App.tsx handleAnswerChange, lines 167-190) -/

/-- The per-element update performed inside the map of handleAnswerChange.
Optional arguments of the TypeScript function are `Option`s; the
selected-options branch runs only when both selectedOption and isChecked
were provided, exactly as in the source. -/
def updateQA (questionId : String) (answer : Option String)
    (selectedOption : Option String) (isChecked : Option Bool)
    (qa : QuestionAnswer) : QuestionAnswer :=
  if qa.id = questionId then
    let newSelectedOptions :=
      match selectedOption, isChecked with
      | some opt, some chk =>
        if chk then
          if qa.selectedOptions.contains opt then qa.selectedOptions
          else qa.selectedOptions ++ [opt]
        else
          qa.selectedOptions.filter (fun o => o ≠ opt)
      | _, _ => qa.selectedOptions
    { qa with
      answer := answer.getD qa.answer,
      selectedOptions := newSelectedOptions }
  else qa

/-- handleAnswerChange (src/App.tsx lines 167-190), acting on the
questionAnswers list. -/
def handleAnswerChange (questionId : String) (answer : Option String)
    (selectedOption : Option String) (isChecked : Option Bool)
    (qas : List QuestionAnswer) : List QuestionAnswer :=
  qas.map (updateQA questionId answer selectedOption isChecked)

/-! ## Start over (src/App.tsx handleStartOver, lines 415-433) -/

/-- handleStartOver: resets every piece of component state. -/
def handleStartOver (s : AppModel) : AppModel :=
  { s with
    appState := .INITIAL,
    basicPrompt := "",
    questionAnswers := [],
    enhancedResult := none,
    error := none,
    subjectReferenceImageFile := none, subjectReferenceImagePreview := none,
    styleReferenceImageFile := none, styleReferenceImagePreview := none,
    copiedEnhancedPrompt := false,
    copiedNegativePrompt := false,
    copiedSuggestionIndex := none,
    outputAspectRatio := "auto",
    outputCustomWidth := "",
    outputCustomHeight := "",
    isEditingEnhancedPrompt := false,
    editedEnhancedPromptText := "" }

/-! ## Service layer (src/services/geminiService.ts)

The network call is external; each service function is modelled on its raw
reply.  A reply of `none` stands for the cases in which the TypeScript code
throws before producing a value (network failure, JSON.parse failure, or a
parsed value of the wrong runtime shape), all of which land in the catch
block of the operation. -/

/-- One element of the JSON array generateQuestions parses (lines 37-44).
The code reads the properties id, questionText and options; options may be
absent (it is defaulted with the or-operator). -/
structure RawQuestion where
  id : String
  questionText : String
  options : Option (List String)
deriving Repr, DecidableEq

/-- JSON.stringify of the raw question object (geminiService.ts line 40);
escaping of special characters inside the strings is elided. -/
def stringifyRawQuestion (q : RawQuestion) : String :=
  let i := q.id
  let t := q.questionText
  let base := s!"\x7b\"id\":\"{i}\",\"questionText\":\"{t}\""
  match q.options with
  | none => base ++ "\x7d"
  | some opts =>
    let o := String.intercalate "," (opts.map (fun x => "\"" ++ x ++ "\""))
    base ++ s!",\"options\":[{o}]\x7d"

/-- The map in generateQuestions (lines 37-44) turning each parsed entry
into a QuestionAnswer: answer starts empty, options default to the empty
list, selectedOptions starts empty. -/
def mapQuestions (raws : List RawQuestion) : List QuestionAnswer :=
  raws.map fun q =>
    { id := q.id,
      questionText := q.questionText,
      fullQuestionPrompt := stringifyRawQuestion q,
      answer := "",
      options := q.options.getD [],
      selectedOptions := [] }

/-- generateQuestions (lines 12-49) as a function of the raw reply: a
throwing path yields the opaque failure message, a parsed array is mapped
entry-wise with no validation of count or content. -/
def generateQuestions (reply : Option (List RawQuestion)) :
    Except String (List QuestionAnswer) :=
  match reply with
  | none => Except.error "Failed to generate questions"
  | some raws => Except.ok (mapQuestions raws)

/-- The object shape the result-style operations read off the parsed JSON
reply: each property may be absent at runtime. -/
structure RawResultReply where
  enhancedPrompt : Option String
  negativePrompt : Option String
  suggestions : Option (List String)
deriving Repr, DecidableEq

/-- The shared tail of the five result-shaped operations (for example
generateEnhancedPrompt lines 97-111): a throwing path is caught and replaced
by the operation-specific message; a parsed reply is copied field-wise, with
only suggestions defaulted to the empty list. -/
def parseResultReply (reply : Option RawResultReply) (failMsg : String) :
    Except String EnhancedPromptResult :=
  match reply with
  | none => Except.error failMsg
  | some d =>
    Except.ok
      { enhancedPrompt := d.enhancedPrompt,
        negativePrompt := d.negativePrompt,
        suggestions := d.suggestions.getD [],
        outputTypeUsed := OutputType.RASTER_PROMPT }

/-- generateEnhancedPrompt (lines 51-112), reply-processing part. -/
def generateEnhancedPrompt (reply : Option RawResultReply) :
    Except String EnhancedPromptResult :=
  parseResultReply reply "Failed to generate enhanced prompt"

/-- generateMagicPrompt (lines 144-210), reply-processing part. -/
def generateMagicPrompt (reply : Option RawResultReply) :
    Except String EnhancedPromptResult :=
  parseResultReply reply "Failed to generate magic prompt"

/-- generateCopyImagePrompt (lines 212-261), reply-processing part. -/
def generateCopyImagePrompt (reply : Option RawResultReply) :
    Except String EnhancedPromptResult :=
  parseResultReply reply "Failed to generate copy image prompt"

/-- generateStyleInfluencePrompt (lines 263-343), reply-processing part. -/
def generateStyleInfluencePrompt (reply : Option RawResultReply) :
    Except String EnhancedPromptResult :=
  parseResultReply reply "Failed to generate style influence prompt"

/-- refineEditedPrompt (lines 345-414), reply-processing part. -/
def refineEditedPrompt (reply : Option RawResultReply) :
    Except String EnhancedPromptResult :=
  parseResultReply reply "Failed to refine edited prompt"

/-! ## Instruction strings and request payloads -/

/-- One segment of the payload handed to model.generateContent: either a
text part or an inlineData part carrying a base64 image. -/
inductive Part where
  | text (text : String)
  | inlineData (mimeType : String) (data : String)
deriving Repr, DecidableEq

/-- The zero-or-one payload segments contributed by an optional image. -/
def imageParts (img : Option ReferenceImage) : List Part :=
  match img with
  | some i => [Part.inlineData i.mimeType i.base64]
  | none => []

/-- answersText of generateEnhancedPrompt (lines 59-65). -/
def answersText (qas : List QuestionAnswer) : String :=
  String.intercalate "\n\n" (qas.map fun qa =>
    let selected :=
      if qa.selectedOptions.length > 0 then
        String.intercalate ", " qa.selectedOptions
      else "None selected"
    let notes := if qa.answer = "" then "" else
      let a := qa.answer
      s!"Notes: {a}"
    let qt := qa.questionText
    s!"{qt}\nSelected: {selected}\n{notes}")

/-- The instruction template of generateQuestions (lines 16-29). -/
def questionsInstruction (basicPrompt : String) : String :=
  s!"Based on this basic image prompt idea: \"{basicPrompt}\"\n\nGenerate exactly 11 questions in Polish to help enhance this prompt. The first question should always be about artistic style. Each question should have 10 relevant options.\n\nReturn a JSON array with this exact structure:\n[\n  \x7b\n    \"id\": \"q1\",\n    \"questionText\": \"Jaki styl artystyczny preferujesz?\",\n    \"options\": [\"Fotorealistyczny\", \"Malarstwo olejne\", \"Akwarela\", \"Cyfrowy\", \"Szkic ołówkiem\", \"Pop art\", \"Surrealizm\", \"Impresjonizm\", \"Minimalistyczny\", \"Abstrakcyjny\"]\n  \x7d\n]\n\nMake sure all questions and options are in Polish. Focus on aspects like style, mood, lighting, composition, colors, details, etc."

/-- The instruction template of generateEnhancedPrompt (lines 67-84). -/
def enhancedPromptInstruction (basicPrompt : String) (qas : List QuestionAnswer) : String :=
  let a := answersText qas
  s!"Create a high-quality English image generation prompt based on:\n\nBasic idea: {basicPrompt}\n\nUser preferences:\n{a}\n\nGenerate:\n1. Enhanced main prompt (detailed, professional, in English)\n2. Negative prompt (what to avoid, in English)\n3. 3-5 suggestions for further improvements (in English)\n\nReturn as JSON:\n\x7b\n  \"enhancedPrompt\": \"detailed prompt here\",\n  \"negativePrompt\": \"negative prompt here\",\n  \"suggestions\": [\"suggestion 1\", \"suggestion 2\", ...]\n\x7d"

/-- The instruction of generateImageDescription (lines 118-125). -/
def imageDescriptionInstruction : String :=
  "Analyze this image and create a detailed English description that could be used as a base for an image generation prompt. Focus on:\n- Main subject/objects\n- Style and artistic elements\n- Colors and lighting\n- Composition and mood\n- Important details\n\nProvide a concise but descriptive prompt in English."

/-- dimensionsText of generateMagicPrompt (lines 154-161). -/
def magicDimensionsText (aspectRatio customWidth customHeight : String) : String :=
  if aspectRatio ≠ "auto" then
    if aspectRatio = "custom" then
      s!"Dimensions: {customWidth}x{customHeight}px"
    else
      s!"Aspect ratio: {aspectRatio}"
  else ""

/-- The instruction template of generateMagicPrompt (lines 163-182). -/
def magicPromptInstruction (basicPrompt dimensionsText : String) : String :=
  s!"Create a magical, highly detailed English image generation prompt based on: \"{basicPrompt}\"\n\n{dimensionsText}\n\nTransform this basic idea into a stunning, professional-quality prompt with:\n- Rich artistic details\n- Professional photography/art terminology\n- Specific lighting and mood descriptions\n- High-quality rendering specifications\n\nAlso provide:\n- Negative prompt (what to avoid)\n- 3-5 creative suggestions for variations\n\nReturn as JSON:\n\x7b\n  \"enhancedPrompt\": \"magical detailed prompt here\",\n  \"negativePrompt\": \"negative prompt here\",\n  \"suggestions\": [\"suggestion 1\", \"suggestion 2\", ...]\n\x7d"

/-- The instruction of generateCopyImagePrompt (lines 216-236). -/
def copyImageInstruction : String :=
  "Analyze this image in extreme detail and create a comprehensive English prompt that would recreate this image as closely as possible. Include:\n\n- Exact description of all subjects/objects\n- Precise artistic style and technique\n- Detailed lighting setup and shadows\n- Color palette and saturation\n- Composition and framing\n- Texture and material details\n- Background elements\n- Camera settings if photographic\n\nAlso provide:\n- Negative prompt to avoid unwanted elements\n- 3-5 suggestions for fine-tuning\n\nReturn as JSON:\n\x7b\n  \"enhancedPrompt\": \"extremely detailed recreation prompt here\",\n  \"negativePrompt\": \"negative prompt here\",\n  \"suggestions\": [\"suggestion 1\", \"suggestion 2\", ...]\n\x7d"

/-- JavaScript truthiness of an optional string parameter. -/
def truthy (o : Option String) : Bool := decide (o ≠ none ∧ o.getD "" ≠ "")

/-- dimensionsText of generateStyleInfluencePrompt (lines 274-281): the
aspect-ratio arguments are optional parameters, guarded by truthiness. -/
def styleDimensionsText (aspectRatio customWidth customHeight : Option String) : String :=
  if truthy aspectRatio ∧ aspectRatio.getD "" ≠ "auto" then
    if aspectRatio.getD "" = "custom" ∧ truthy customWidth ∧ truthy customHeight then
      let w := customWidth.getD ""
      let h := customHeight.getD ""
      s!"Dimensions: {w}x{h}px"
    else
      let ar := aspectRatio.getD ""
      s!"Aspect ratio: {ar}"
  else ""

/-- The instruction template of generateStyleInfluencePrompt (lines 283-306). -/
def styleInfluenceInstruction (basicPrompt dimensionsText : String) : String :=
  s!"Create an English image generation prompt that combines:\n\nSubject/Theme: {basicPrompt}\n{dimensionsText}\n\nAnalyze the style reference image and apply its artistic characteristics to the subject. Focus on:\n- Artistic technique and medium\n- Color palette and mood\n- Lighting style\n- Brushwork or rendering technique\n- Overall aesthetic approach\n\nCreate a detailed prompt that merges the subject with the reference style.\n\nAlso provide:\n- Negative prompt\n- 3-5 creative variations\n\nReturn as JSON:\n\x7b\n  \"enhancedPrompt\": \"style-influenced prompt here\",\n  \"negativePrompt\": \"negative prompt here\",\n  \"suggestions\": [\"suggestion 1\", \"suggestion 2\", ...]\n\x7d"

/-- answersContext of refineEditedPrompt (lines 354-360). -/
def answersContext (qas : List QuestionAnswer) : String :=
  String.intercalate "\n" (qas.map fun qa =>
    let selected :=
      if qa.selectedOptions.length > 0 then
        String.intercalate ", " qa.selectedOptions
      else "None"
    let notes := if qa.answer = "" then "" else
      let a := qa.answer
      s!"Notes: {a}"
    let qt := qa.questionText
    s!"{qt}: {selected} {notes}")

/-- The instruction template of refineEditedPrompt (lines 362-386). -/
def refineInstruction (editedPrompt originalBasicPrompt : String)
    (qas : List QuestionAnswer) : String :=
  let a := answersContext qas
  s!"Refine and improve this edited prompt while maintaining the user's intent:\n\nEdited Prompt: {editedPrompt}\n\nOriginal Context:\n- Basic idea: {originalBasicPrompt}\n- User preferences: {a}\n\nImprove the edited prompt by:\n- Fixing any grammar or clarity issues\n- Enhancing technical terminology\n- Maintaining the user's creative vision\n- Adding professional quality specifications\n\nProvide:\n- Refined enhanced prompt\n- Updated negative prompt\n- 3-5 suggestions for further refinement\n\nReturn as JSON:\n\x7b\n  \"enhancedPrompt\": \"refined prompt here\",\n  \"negativePrompt\": \"negative prompt here\",\n  \"suggestions\": [\"suggestion 1\", \"suggestion 2\", ...]\n\x7d"

/-- The payload of generateEnhancedPrompt (lines 86-97): a text part, then
the subject image part when one was passed. -/
def generateEnhancedPromptParts (basicPrompt : String) (qas : List QuestionAnswer)
    (subjectImage : Option ReferenceImage) : List Part :=
  let parts := [Part.text (enhancedPromptInstruction basicPrompt qas)]
  match subjectImage with
  | some img => parts ++ [Part.inlineData img.mimeType img.base64]
  | none => parts

/-- The payload of generateImageDescription (lines 127-135). -/
def generateImageDescriptionParts (image : ReferenceImage) : List Part :=
  [Part.text imageDescriptionInstruction,
   Part.inlineData image.mimeType image.base64]

/-- The payload of generateMagicPrompt (lines 184-195). -/
def generateMagicPromptParts (basicPrompt aspectRatio customWidth customHeight : String)
    (subjectImage : Option ReferenceImage) : List Part :=
  let parts := [Part.text (magicPromptInstruction basicPrompt
    (magicDimensionsText aspectRatio customWidth customHeight))]
  match subjectImage with
  | some img => parts ++ [Part.inlineData img.mimeType img.base64]
  | none => parts

/-- The payload of generateCopyImagePrompt (lines 238-246). -/
def generateCopyImagePromptParts (image : ReferenceImage) : List Part :=
  [Part.text copyImageInstruction,
   Part.inlineData image.mimeType image.base64]

/-- The payload of generateStyleInfluencePrompt (lines 308-328): text, then
always the style image, then the subject image when passed. -/
def generateStyleInfluencePromptParts (basicPrompt : String) (styleImage : ReferenceImage)
    (subjectImage : Option ReferenceImage)
    (aspectRatio customWidth customHeight : Option String) : List Part :=
  let parts := [Part.text (styleInfluenceInstruction basicPrompt
    (styleDimensionsText aspectRatio customWidth customHeight))]
  let parts := parts ++ [Part.inlineData styleImage.mimeType styleImage.base64]
  match subjectImage with
  | some img => parts ++ [Part.inlineData img.mimeType img.base64]
  | none => parts

/-- The payload of refineEditedPrompt (lines 388-399). -/
def refineEditedPromptParts (editedPrompt originalBasicPrompt : String)
    (qas : List QuestionAnswer) (subjectImage : Option ReferenceImage) : List Part :=
  let parts := [Part.text (refineInstruction editedPrompt originalBasicPrompt qas)]
  match subjectImage with
  | some img => parts ++ [Part.inlineData img.mimeType img.base64]
  | none => parts

/-! ## Numeric parsing and dimension validation (src/App.tsx) -/

/-- JavaScript String.prototype.trim: strip leading and trailing
whitespace.  Defined by structural recursion on the character list so that
it evaluates on concrete inputs. -/
def jsTrim (s : String) : String :=
  ⟨((s.data.dropWhile Char.isWhitespace).reverse.dropWhile Char.isWhitespace).reverse⟩

/-- Value of a block of decimal digits. -/
def digitsVal (ds : List Char) : Nat :=
  ds.foldl (fun a c => a * 10 + (c.toNat - '0'.toNat)) 0

/-- Longest decimal-digit prefix, or none when it is empty. -/
def digitsToNat? (cs : List Char) : Option Nat :=
  let ds := cs.takeWhile Char.isDigit
  if ds.isEmpty then none else some (digitsVal ds)

/-- JavaScript parseInt(s, 10): skip leading whitespace, read an optional
sign and the longest digit prefix; NaN (here none) when no digit follows. -/
def jsParseInt (s : String) : Option Int :=
  let cs := s.data.dropWhile Char.isWhitespace
  match cs with
  | '-' :: rest => (digitsToNat? rest).map (fun n => -(n : Int))
  | '+' :: rest => (digitsToNat? rest).map (fun n => (n : Int))
  | _ => (digitsToNat? cs).map (fun n => (n : Int))

/-- The comparison parseInt(x) <= 0 as JavaScript evaluates it: a NaN
operand makes the comparison false. -/
def jsLeZero (v : Option Int) : Bool :=
  match v with
  | none => false
  | some n => decide (n ≤ 0)

/-- isCustomDimensionsInvalid (src/App.tsx lines 453-465). -/
def isCustomDimensionsInvalid
    (outputAspectRatio outputCustomWidth outputCustomHeight : String) : Bool :=
  if outputAspectRatio = "custom" then
    if jsTrim outputCustomWidth = "" ∨ jsTrim outputCustomHeight = "" then true
    else
      match jsParseInt outputCustomWidth, jsParseInt outputCustomHeight with
      | some w, some h => decide (w ≤ 0) || decide (h ≤ 0)
      | _, _ => true
  else false

/-! ## Submission handlers (src/App.tsx)

Each handler is a pure function of the current state and of the outcomes of
its external effects: the base64 conversion of each file it reads
(an Except, error meaning the FileReader rejected) and the raw reply of the
service call it awaits. -/

/-- The validation message of handleBasicPromptSubmit (line 143). -/
def basicPromptEmptyMsg : String :=
  "Proszę wpisać podstawowy pomysł na prompt lub wygenerować go z obrazu tematu."

/-- The count-mismatch message thrown on line 155; the template literal
embeds the observed and the expected count, written here as the string
concatenation a template literal denotes. -/
def countMismatchMsg (received : Nat) : String :=
  "Niespodziewana liczba pytań od AI. Otrzymano " ++ toString received ++
    ", oczekiwano " ++ toString NUMBER_OF_QUESTIONS_TO_ASK ++ "."

/-- handleBasicPromptSubmit (src/App.tsx lines 141-165). -/
def handleBasicPromptSubmit (s : AppModel) (reply : Option (List RawQuestion)) :
    AppModel :=
  if jsTrim s.basicPrompt = "" then
    { s with error := some basicPromptEmptyMsg }
  else
    let s1 := { s with error := none, appState := AppState.GENERATING_QUESTIONS }
    match generateQuestions reply with
    | Except.error msg => { s1 with error := some msg, appState := AppState.ERROR }
    | Except.ok newQuestionAnswers =>
      if newQuestionAnswers.length ≠ NUMBER_OF_QUESTIONS_TO_ASK then
        { s1 with
          error := some (countMismatchMsg newQuestionAnswers.length),
          appState := AppState.ERROR }
      else
        { s1 with
          questionAnswers := newQuestionAnswers,
          appState := AppState.ASKING_QUESTIONS }

/-- handleGenerateDescriptionFromImage (src/App.tsx lines 110-139).
A FileReader rejection carries an event without a message, so the catch
falls back to the Polish message; a service failure carries the service's
thrown message. -/
def handleGenerateDescriptionFromImage (s : AppModel)
    (readBase64 : Except Unit String) (descriptionReply : Option String) : AppModel :=
  match s.subjectReferenceImageFile with
  | none =>
    { s with error := some "Najpierw prześlij obraz (Temat/Obiekt), aby wygenerować jego opis." }
  | some _f =>
    let s1 := { s with error := none, appState := AppState.GENERATING_DESCRIPTION }
    match readBase64 with
    | Except.error _ =>
      { s1 with
        error := some "Nie udało się wygenerować opisu obrazu. Sprawdź konsolę.",
        appState := AppState.INITIAL }
    | Except.ok _b64 =>
      match descriptionReply with
      | none =>
        { s1 with
          error := some "Failed to generate image description",
          appState := AppState.INITIAL }
      | some description =>
        { s1 with
          basicPrompt := description,
          appState := AppState.INITIAL,
          error := none }

/-- The empty-idea validation message of handleMagicPromptSubmit (line 229). -/
def magicEmptyPromptMsg : String :=
  "Proszę wpisać podstawowy pomysł na prompt (może być po polsku lub angielsku) lub wygenerować go z obrazu tematu. Dla 'Magicznego Promptu', ten tekst (wraz z obrazem referencyjnym tematu, jeśli dodano) posłuży AI do kreatywnego rozwinięcia. Wynikowy prompt będzie po angielsku."

/-- The invalid-custom-dimensions validation message (lines 233 and 310). -/
def customDimsMsg : String :=
  "Dla niestandardowych wymiarów, proszę podać prawidłową szerokość i wysokość (większe od 0)."

/-- The custom-dimensions guard shared by handleMagicPromptSubmit (line 232)
and handleStyleInfluenceSubmit (line 309): note it tests parseInt(x) <= 0
without an isNaN check, so the NaN semantics of jsLeZero apply. -/
def submitCustomDimsInvalid (s : AppModel) : Bool :=
  decide (s.outputAspectRatio = "custom") &&
    (decide (jsTrim s.outputCustomWidth = "") || decide (jsTrim s.outputCustomHeight = "") ||
     jsLeZero (jsParseInt s.outputCustomWidth) ||
     jsLeZero (jsParseInt s.outputCustomHeight))

/-- handleMagicPromptSubmit (src/App.tsx lines 227-269), state part. -/
def handleMagicPromptSubmit (s : AppModel) (readBase64 : Except Unit String)
    (reply : Option RawResultReply) : AppModel :=
  if jsTrim s.basicPrompt = "" then
    { s with error := some magicEmptyPromptMsg }
  else if submitCustomDimsInvalid s then
    { s with error := some customDimsMsg }
  else
    let s1 := { s with error := none, appState := AppState.GENERATING_MAGIC_PROMPT }
    match s.subjectReferenceImageFile, readBase64 with
    | some _f, Except.error _ =>
      { s1 with
        error := some "Nie udało się przetworzyć obrazu referencyjnego tematu dla magicznego promptu. Spróbuj ponownie lub kontynuuj bez obrazu.",
        appState := AppState.INITIAL }
    | _, _ =>
      match generateMagicPrompt reply with
      | Except.error msg => { s1 with error := some msg, appState := AppState.ERROR }
      | Except.ok result =>
        { s1 with
          enhancedResult := some result,
          appState := AppState.SHOWING_RESULTS }

/-- The subject-image payload built by the handlers that read the subject
file (for example lines 247-250). -/
def subjectImagePayload (s : AppModel) (base64 : String) : Option ReferenceImage :=
  match s.subjectReferenceImageFile with
  | some f => some { base64 := base64, mimeType := f.type }
  | none => none

/-- The request payload handleMagicPromptSubmit sends (lines 258-261): the
caller substitutes the fixed iPhone-wallpaper pixel dimensions into the
custom width and height arguments before calling the builder, and passes
outputAspectRatio through unchanged. -/
def magicRequestParts (s : AppModel) (subjectImg : Option ReferenceImage) : List Part :=
  let currentOutputCustomWidth :=
    if s.outputAspectRatio = IPHONE_14_WALLPAPER_OPTION_VALUE then "1170"
    else s.outputCustomWidth
  let currentOutputCustomHeight :=
    if s.outputAspectRatio = IPHONE_14_WALLPAPER_OPTION_VALUE then "2532"
    else s.outputCustomHeight
  generateMagicPromptParts s.basicPrompt s.outputAspectRatio
    currentOutputCustomWidth currentOutputCustomHeight subjectImg

/-- The request payload handleStyleInfluenceSubmit sends (lines 343-345),
with the same caller-side substitution. -/
def styleRequestParts (s : AppModel) (styleImg : ReferenceImage)
    (subjectImg : Option ReferenceImage) : List Part :=
  let currentOutputCustomWidth :=
    if s.outputAspectRatio = IPHONE_14_WALLPAPER_OPTION_VALUE then "1170"
    else s.outputCustomWidth
  let currentOutputCustomHeight :=
    if s.outputAspectRatio = IPHONE_14_WALLPAPER_OPTION_VALUE then "2532"
    else s.outputCustomHeight
  generateStyleInfluencePromptParts s.basicPrompt styleImg subjectImg
    (some s.outputAspectRatio) (some currentOutputCustomWidth)
    (some currentOutputCustomHeight)

/-- handleCopyImageSubmit (src/App.tsx lines 271-297): the file read and
the service call share one try block whose catch enters the ERROR state. -/
def handleCopyImageSubmit (s : AppModel) (readBase64 : Except Unit String)
    (reply : Option RawResultReply) : AppModel :=
  match s.subjectReferenceImageFile with
  | none =>
    { s with error := some "Najpierw prześlij obraz (Temat/Obiekt), który chcesz skopiować." }
  | some _f =>
    let s1 := { s with error := none, appState := AppState.GENERATING_COPY_PROMPT }
    match readBase64 with
    | Except.error _ =>
      { s1 with
        error := some "Nie udało się wygenerować promptu do kopiowania obrazu. Sprawdź konsolę.",
        appState := AppState.ERROR }
    | Except.ok _b64 =>
      match generateCopyImagePrompt reply with
      | Except.error msg => { s1 with error := some msg, appState := AppState.ERROR }
      | Except.ok result =>
        { s1 with
          enhancedResult := some result,
          appState := AppState.SHOWING_RESULTS }

/-- handleStyleInfluenceSubmit (src/App.tsx lines 300-353), state part. -/
def handleStyleInfluenceSubmit (s : AppModel)
    (readSubject readStyle : Except Unit String)
    (reply : Option RawResultReply) : AppModel :=
  match s.styleReferenceImageFile with
  | none =>
    { s with error := some "Aby zastosować wpływ stylu, prześlij 'Obraz Stylu Referencyjnego'." }
  | some _styleF =>
    if jsTrim s.basicPrompt = "" ∧ s.subjectReferenceImageFile = none then
      { s with error := some "Podaj 'Podstawowy pomysł/prompt' (może być po polsku lub angielsku) opisujący temat LUB prześlij 'Obraz Referencyjny (Temat/Obiekt)'. Wynikowy prompt będzie po angielsku." }
    else if submitCustomDimsInvalid s then
      { s with error := some customDimsMsg }
    else
      let s1 := { s with error := none, appState := AppState.GENERATING_STYLE_INFLUENCE_PROMPT }
      match s.subjectReferenceImageFile, readSubject with
      | some _f, Except.error _ =>
        { s1 with
          error := some "Nie udało się przetworzyć obrazu referencyjnego tematu. Spróbuj ponownie.",
          appState := AppState.INITIAL }
      | _, _ =>
        match readStyle with
        | Except.error _ =>
          { s1 with
            error := some "Nie udało się przetworzyć obrazu stylu referencyjnego. Spróbuj ponownie.",
            appState := AppState.INITIAL }
        | Except.ok _b64 =>
          match generateStyleInfluencePrompt reply with
          | Except.error msg => { s1 with error := some msg, appState := AppState.ERROR }
          | Except.ok result =>
            { s1 with
              enhancedResult := some result,
              appState := AppState.SHOWING_RESULTS }

/-- handleSubmitRefinedPrompt (src/App.tsx lines 368-412), state part. -/
def handleSubmitRefinedPrompt (s : AppModel) (readBase64 : Except Unit String)
    (reply : Option RawResultReply) : AppModel :=
  if jsTrim s.editedEnhancedPromptText = "" then
    { s with error := some "Edytowany prompt nie może być pusty." }
  else
    let s1 := { s with error := none, appState := AppState.GENERATING_REFINEMENT }
    match s.subjectReferenceImageFile, readBase64 with
    | some _f, Except.error _ =>
      { s1 with
        error := some "Nie udało się przetworzyć obrazu referencyjnego tematu dla poprawki. Spróbuj ponownie.",
        appState := AppState.SHOWING_RESULTS,
        isEditingEnhancedPrompt := true }
    | _, _ =>
      match refineEditedPrompt reply with
      | Except.error msg => { s1 with error := some msg, appState := AppState.ERROR }
      | Except.ok result =>
        { s1 with
          enhancedResult := some result,
          appState := AppState.SHOWING_RESULTS,
          isEditingEnhancedPrompt := false,
          copiedEnhancedPrompt := false,
          copiedNegativePrompt := false,
          copiedSuggestionIndex := none }

/-! ## Auxiliary definitions used by the statements below -/

/-- The useState initial values of the component (src/App.tsx lines 23-47);
this is also the fully cleared state the reset action must reach. -/
def initialModel : AppModel :=
  { appState := AppState.INITIAL,
    basicPrompt := "",
    questionAnswers := [],
    enhancedResult := none,
    error := none,
    copiedEnhancedPrompt := false,
    copiedNegativePrompt := false,
    copiedSuggestionIndex := none,
    subjectReferenceImageFile := none,
    subjectReferenceImagePreview := none,
    styleReferenceImageFile := none,
    styleReferenceImagePreview := none,
    outputAspectRatio := "auto",
    outputCustomWidth := "",
    outputCustomHeight := "",
    isEditingEnhancedPrompt := false,
    editedEnhancedPromptText := "" }

/-- Substring test, used to state what an instruction string does and does
not embed. -/
def strContains (s pat : String) : Bool :=
  decide (List.IsInfix pat.data s.data)

/-- The canonical segment order the request payloads are compared against:
instruction text, then the style image if any, then the subject image if
any. -/
def orderedParts (instruction : String) (styleImg subjectImg : Option ReferenceImage) :
    List Part :=
  Part.text instruction :: (imageParts styleImg ++ imageParts subjectImg)

/-- All questions of a list have duplicate-free selectedOptions. -/
def allSelNodup (qas : List QuestionAnswer) : Prop :=
  ∀ qa ∈ qas, qa.selectedOptions.Nodup

instance (qas : List QuestionAnswer) : Decidable (allSelNodup qas) :=
  inferInstanceAs (Decidable (∀ qa ∈ qas, qa.selectedOptions.Nodup))

/-- A sample question with one option already selected. -/
def demoQuestion : QuestionAnswer :=
  { id := "q1",
    questionText := "Jaki styl artystyczny preferujesz?",
    fullQuestionPrompt := "raw",
    answer := "",
    options := ["A", "B"],
    selectedOptions := ["A"] }

/-- A state holding a non-empty basic idea. -/
def ideaModel : AppModel :=
  { initialModel with basicPrompt := "kot" }

/-- Eleven parsed question entries whose questionText is empty. -/
def elevenBlankQuestions : List RawQuestion :=
  List.replicate 11 { id := "q1", questionText := "", options := some ["Opcja"] }

/-- Two parsed question entries. -/
def twoQuestions : List RawQuestion :=
  List.replicate 2 { id := "q1", questionText := "Pytanie", options := some ["Opcja"] }

/-- A state with the iPhone-wallpaper aspect-ratio preset selected. -/
def iphoneModel : AppModel :=
  { initialModel with
    basicPrompt := "kot",
    outputAspectRatio := IPHONE_14_WALLPAPER_OPTION_VALUE }

/-- A valid-JSON reply lacking the enhancedPrompt key. -/
def missingFieldReply : RawResultReply :=
  { enhancedPrompt := none,
    negativePrompt := some "blurry, low quality",
    suggestions := some [] }

/-- An allowed-type file exactly one byte over the 5 MB bound. -/
def oversizedJpeg : JsFile :=
  { name := "photo.jpg", type := "image/jpeg", size := 5 * 1024 * 1024 + 1 }

/-- What the result-shaped operations produce from missingFieldReply. -/
def missingFieldParsed : EnhancedPromptResult :=
  { enhancedPrompt := none,
    negativePrompt := some "blurry, low quality",
    suggestions := [],
    outputTypeUsed := OutputType.RASTER_PROMPT }

/-! ## Theorems -/

/-- C5: the start-over reset action, invoked from any state, always yields
the fully cleared state: basic idea empty, question/answer set empty, no
enhanced result, both image slots (file and preview) empty, aspect ratio
"auto", empty custom width and height, and editing mode off with an empty
edit draft. -/
theorem startOver_yields_cleared_state (s : AppModel) :
    handleStartOver s =
      { appState := AppState.INITIAL,
        basicPrompt := "",
        questionAnswers := [],
        enhancedResult := none,
        error := none,
        copiedEnhancedPrompt := false,
        copiedNegativePrompt := false,
        copiedSuggestionIndex := none,
        subjectReferenceImageFile := none,
        subjectReferenceImagePreview := none,
        styleReferenceImageFile := none,
        styleReferenceImagePreview := none,
        outputAspectRatio := "auto",
        outputCustomWidth := "",
        outputCustomHeight := "",
        isEditingEnhancedPrompt := false,
        editedEnhancedPromptText := "" } := rfl

/-- C9: every generation payload is the instruction text first, then the
style image when present (only the style-influence operation attaches one),
then the subject image when present — never any other order. -/
theorem request_payload_segment_order (bp ep : String) (qas : List QuestionAnswer)
    (arO cwO chO : Option String) (ar cw ch : String)
    (img styleImg : ReferenceImage) (subj : Option ReferenceImage) :
    generateEnhancedPromptParts bp qas subj =
        orderedParts (enhancedPromptInstruction bp qas) none subj
    ∧ generateImageDescriptionParts img =
        orderedParts imageDescriptionInstruction none (some img)
    ∧ generateMagicPromptParts bp ar cw ch subj =
        orderedParts (magicPromptInstruction bp (magicDimensionsText ar cw ch)) none subj
    ∧ generateCopyImagePromptParts img =
        orderedParts copyImageInstruction none (some img)
    ∧ generateStyleInfluencePromptParts bp styleImg subj arO cwO chO =
        orderedParts (styleInfluenceInstruction bp (styleDimensionsText arO cwO chO))
          (some styleImg) subj
    ∧ refineEditedPromptParts ep bp qas subj =
        orderedParts (refineInstruction ep bp qas) none subj := by
  cases subj <;>
    simp [generateEnhancedPromptParts, generateImageDescriptionParts,
      generateMagicPromptParts, generateCopyImagePromptParts,
      generateStyleInfluencePromptParts, refineEditedPromptParts,
      orderedParts, imageParts]

/-- C10: the answer-change operation maps over the question list; a
question whose id differs from the given one is returned unchanged, and
even for the matching question the id, questionText, fullQuestionPrompt and
options fields are preserved — only answer and selectedOptions can change. -/
theorem answer_change_frame (questionId : String) (answer selectedOption : Option String)
    (isChecked : Option Bool) (qas : List QuestionAnswer) (qa : QuestionAnswer) :
    handleAnswerChange questionId answer selectedOption isChecked qas =
      qas.map (updateQA questionId answer selectedOption isChecked)
    ∧ (qa.id ≠ questionId → updateQA questionId answer selectedOption isChecked qa = qa)
    ∧ (updateQA questionId answer selectedOption isChecked qa).id = qa.id
    ∧ (updateQA questionId answer selectedOption isChecked qa).questionText = qa.questionText
    ∧ (updateQA questionId answer selectedOption isChecked qa).fullQuestionPrompt =
        qa.fullQuestionPrompt
    ∧ (updateQA questionId answer selectedOption isChecked qa).options = qa.options := by
  refine ⟨rfl, fun h => by simp [updateQA, h], ?_, ?_, ?_, ?_⟩ <;>
  · unfold updateQA
    by_cases h : qa.id = questionId <;> simp [h]

/-- Witness for C10 at a concrete question and a different id. -/
theorem answer_change_frame_witness :
    demoQuestion.id ≠ "q9" ∧
    updateQA "q9" (some "notatka") (some "B") (some true) demoQuestion = demoQuestion :=
  ⟨by decide,
   (answer_change_frame "q9" (some "notatka") (some "B") (some true) [] demoQuestion).2.1
     (by decide)⟩

/-- C3 counterexample: a parsed reply that lacks the required enhancedPrompt
field is not rejected — every result-shaped operation resolves with the
field simply absent. -/
theorem missing_required_field_not_rejected :
    generateEnhancedPrompt (some missingFieldReply) = Except.ok missingFieldParsed
    ∧ generateMagicPrompt (some missingFieldReply) = Except.ok missingFieldParsed
    ∧ generateCopyImagePrompt (some missingFieldReply) = Except.ok missingFieldParsed
    ∧ generateStyleInfluencePrompt (some missingFieldReply) = Except.ok missingFieldParsed
    ∧ refineEditedPrompt (some missingFieldReply) = Except.ok missingFieldParsed
    ∧ missingFieldParsed.enhancedPrompt = none :=
  ⟨rfl, rfl, rfl, rfl, rfl, rfl⟩

/-- C3 amended: only a throwing reply (malformed JSON, wrong runtime shape,
or a failed call) is folded into the operation-specific GenerationFailed
message; a parsed reply always succeeds, its enhancedPrompt and
negativePrompt copied as-is (possibly absent) and only a missing
suggestions field defaulted to the empty list. -/
theorem result_reply_parsing (d : RawResultReply) :
    generateEnhancedPrompt none = Except.error "Failed to generate enhanced prompt"
    ∧ generateMagicPrompt none = Except.error "Failed to generate magic prompt"
    ∧ generateCopyImagePrompt none = Except.error "Failed to generate copy image prompt"
    ∧ generateStyleInfluencePrompt none = Except.error "Failed to generate style influence prompt"
    ∧ refineEditedPrompt none = Except.error "Failed to refine edited prompt"
    ∧ (∀ msg : String, parseResultReply (some d) msg =
        Except.ok
          { enhancedPrompt := d.enhancedPrompt,
            negativePrompt := d.negativePrompt,
            suggestions := d.suggestions.getD [],
            outputTypeUsed := OutputType.RASTER_PROMPT }) :=
  ⟨rfl, rfl, rfl, rfl, rfl, fun _ => rfl⟩

/-- Filtering away an element that is not in the list changes nothing. -/
lemma filter_ne_of_not_mem {l : List String} {a : String} (h : a ∉ l) :
    l.filter (fun o => !decide (o = a)) = l :=
  List.filter_eq_self.mpr (fun b hb => by
    simp only [Bool.not_eq_eq_eq_not, Bool.not_true, decide_eq_false_iff_not]
    rintro rfl
    exact h hb)

/-- Appending a fresh element keeps a list duplicate-free. -/
lemma nodup_append_single {l : List String} {a : String} (h : a ∉ l) (hn : l.Nodup) :
    (l ++ [a]).Nodup := by
  refine hn.append (List.nodup_singleton a) ?_
  intro x hx hx'
  simp only [List.mem_singleton] at hx'
  exact h (hx' ▸ hx)

/-- Selecting an option that is not yet selected, then deselecting it,
returns the question to its exact previous value. -/
lemma updateQA_select_deselect (questionId opt : String) (qa : QuestionAnswer)
    (h : qa.id = questionId → opt ∉ qa.selectedOptions) :
    updateQA questionId none (some opt) (some false)
      (updateQA questionId none (some opt) (some true) qa) = qa := by
  obtain ⟨qid, qtext, qfull, qans, qopts, qsel⟩ := qa
  by_cases hid : qid = questionId
  · subst hid
    have hnot : opt ∉ qsel := h rfl
    simp [updateQA, hnot, List.filter_append, filter_ne_of_not_mem hnot]
  · simp [updateQA, hid]

/-- One application of the per-question update keeps selectedOptions
duplicate-free. -/
lemma updateQA_nodup (questionId : String) (answer selectedOption : Option String)
    (isChecked : Option Bool) (qa : QuestionAnswer)
    (h : qa.selectedOptions.Nodup) :
    (updateQA questionId answer selectedOption isChecked qa).selectedOptions.Nodup := by
  unfold updateQA
  by_cases hid : qa.id = questionId
  · rw [if_pos hid]
    rcases selectedOption with _ | opt
    · simpa using h
    · rcases isChecked with _ | chk
      · simpa using h
      · cases chk
        · simpa using h.filter _
        · by_cases hm : opt ∈ qa.selectedOptions
          · simpa [hm] using h
          · simpa [hm] using nodup_append_single hm h
  · simpa [hid] using h

/-- C7 counterexample: when the option is already selected, selecting it
again (a no-op) and then deselecting it removes it, so the resulting
selectedOptions set differs from the set before either action. -/
theorem select_deselect_not_idempotent :
    handleAnswerChange "q1" none (some "A") (some false)
        (handleAnswerChange "q1" none (some "A") (some true) [demoQuestion]) =
      [{ demoQuestion with selectedOptions := [] }]
    ∧ "A" ∈ demoQuestion.selectedOptions
    ∧ "A" ∉ ({ demoQuestion with selectedOptions := ([] : List String) } :
        QuestionAnswer).selectedOptions :=
  ⟨rfl, by decide, by decide⟩

/-- C7 amended: for every question list in which the targeted question does
not already have the option selected (the only situation the checkbox UI
can produce a select action in), applying the answer-change operation to
select the option and then applying it to deselect it restores the list
exactly, hence in particular each selectedOptions set. -/
theorem select_deselect_restores (questionId opt : String) (qas : List QuestionAnswer)
    (h : ∀ qa ∈ qas, qa.id = questionId → opt ∉ qa.selectedOptions) :
    handleAnswerChange questionId none (some opt) (some false)
      (handleAnswerChange questionId none (some opt) (some true) qas) = qas := by
  induction qas with
  | nil => rfl
  | cons qa rest ih =>
    simp only [handleAnswerChange, List.map_cons, List.cons.injEq]
    refine ⟨updateQA_select_deselect questionId opt qa (h qa (List.mem_cons_self qa rest)), ?_⟩
    simpa [handleAnswerChange] using ih (fun q hq => h q (List.mem_cons_of_mem qa hq))

/-- Witness for the amended C7 at a concrete question with the option
unselected. -/
theorem select_deselect_restores_witness :
    handleAnswerChange "q1" none (some "B") (some false)
        (handleAnswerChange "q1" none (some "B") (some true) [demoQuestion]) =
      [demoQuestion] :=
  select_deselect_restores "q1" "B" [demoQuestion] (by decide)

/-- C8: selectedOptions never contains duplicates — generateQuestions
creates every question with an empty selection, and the answer-change
operation (add-if-absent, remove-by-filter) preserves the no-duplicates
invariant of every question in the list. -/
theorem selected_options_never_duplicated :
    (∀ raws : List RawQuestion, allSelNodup (mapQuestions raws))
    ∧ (∀ (questionId : String) (answer selectedOption : Option String)
        (isChecked : Option Bool) (qas : List QuestionAnswer),
        allSelNodup qas →
        allSelNodup (handleAnswerChange questionId answer selectedOption isChecked qas)) := by
  constructor
  · intro raws qa hqa
    simp only [mapQuestions, List.mem_map] at hqa
    obtain ⟨q, _, rfl⟩ := hqa
    exact List.nodup_nil
  · intro questionId answer selectedOption isChecked qas h qa hqa
    simp only [handleAnswerChange, List.mem_map] at hqa
    obtain ⟨q, hq, rfl⟩ := hqa
    exact updateQA_nodup questionId answer selectedOption isChecked q (h q hq)

/-- Witness for C8: one concrete application of the answer-change operation
starting from a duplicate-free list. -/
theorem selected_options_never_duplicated_witness :
    allSelNodup (handleAnswerChange "q1" none (some "B") (some true) [demoQuestion]) :=
  selected_options_never_duplicated.2 "q1" none (some "B") (some true) [demoQuestion]
    (by decide)

/-- C1 counterexample: an 11-entry reply whose entries all have an empty
questionText is treated as success — the flow enters the question-answering
step, so success does not require non-empty question texts. -/
theorem blank_question_text_accepted :
    (handleBasicPromptSubmit ideaModel (some elevenBlankQuestions)).appState =
      AppState.ASKING_QUESTIONS
    ∧ (handleBasicPromptSubmit ideaModel
        (some elevenBlankQuestions)).questionAnswers.map QuestionAnswer.questionText =
      List.replicate 11 "" :=
  ⟨by decide, by decide⟩

/-- C1 amended: with a non-empty trimmed idea, a parsed reply succeeds (the
state machine enters the question-answering step) exactly when it has 11
entries, with no validation of the individual entries; any other count
surfaces the count-mismatch message, which embeds the literal observed
count and the expected count 11, and moves to the error state instead of
the question-answering step. -/
theorem question_count_gate (s : AppModel) (raws : List RawQuestion)
    (hne : jsTrim s.basicPrompt ≠ "") :
    (raws.length = NUMBER_OF_QUESTIONS_TO_ASK →
      handleBasicPromptSubmit s (some raws) =
        { s with
          error := none,
          appState := AppState.ASKING_QUESTIONS,
          questionAnswers := mapQuestions raws })
    ∧ (raws.length ≠ NUMBER_OF_QUESTIONS_TO_ASK →
      (handleBasicPromptSubmit s (some raws)).appState = AppState.ERROR
      ∧ (handleBasicPromptSubmit s (some raws)).appState ≠ AppState.ASKING_QUESTIONS
      ∧ (handleBasicPromptSubmit s (some raws)).error =
          some (countMismatchMsg raws.length))
    ∧ (∃ pre post : String,
        countMismatchMsg raws.length = pre ++ toString raws.length ++ post) := by
  have hlen : (mapQuestions raws).length = raws.length := by
    simp [mapQuestions]
  refine ⟨?_, ?_, ?_⟩
  · intro h
    unfold handleBasicPromptSubmit
    rw [if_neg hne]
    simp only [generateQuestions]
    rw [if_neg (show ¬(mapQuestions raws).length ≠ NUMBER_OF_QUESTIONS_TO_ASK by
      rw [hlen, h]; exact fun hc => hc rfl)]
  · intro h
    unfold handleBasicPromptSubmit
    rw [if_neg hne]
    simp only [generateQuestions]
    rw [if_pos (show (mapQuestions raws).length ≠ NUMBER_OF_QUESTIONS_TO_ASK by
      rw [hlen]; exact h)]
    refine ⟨rfl, fun hcon => AppState.noConfusion hcon, ?_⟩
    simp [hlen]
  · refine ⟨"Niespodziewana liczba pytań od AI. Otrzymano ",
      ", oczekiwano " ++ toString NUMBER_OF_QUESTIONS_TO_ASK ++ ".", ?_⟩
    simp [countMismatchMsg, String.append_assoc]

/-- Witness for the amended C1: a two-entry reply produces the mismatch
message with the observed count and enters the error state. -/
theorem question_count_gate_witness :
    (handleBasicPromptSubmit ideaModel (some twoQuestions)).appState = AppState.ERROR
    ∧ (handleBasicPromptSubmit ideaModel (some twoQuestions)).appState ≠
        AppState.ASKING_QUESTIONS
    ∧ (handleBasicPromptSubmit ideaModel (some twoQuestions)).error =
        some (countMismatchMsg twoQuestions.length) :=
  (question_count_gate ideaModel twoQuestions (by decide)).2.1 (by decide)

set_option maxRecDepth 100000 in
/-- C2: evaluating the request the app sends for the iPhone-wallpaper
preset.  The caller does substitute "1170" and "2532" into the custom
width and height arguments, but the builder only uses those when
aspectRatio equals "custom", so the instruction embeds the preset's
internal name and never the pixel dimensions 1170x2532px — for the
magic-prompt flow and the style-influence flow alike. -/
theorem iphone_preset_not_resolved :
    magicRequestParts iphoneModel none =
      [Part.text (magicPromptInstruction "kot"
        "Aspect ratio: iphone_14_14pro_wallpaper")]
    ∧ styleRequestParts iphoneModel { base64 := "c3R5bGU=", mimeType := "image/png" } none =
      [Part.text (styleInfluenceInstruction "kot"
          "Aspect ratio: iphone_14_14pro_wallpaper"),
        Part.inlineData "image/png" "c3R5bGU="]
    ∧ strContains (magicPromptInstruction "kot"
        "Aspect ratio: iphone_14_14pro_wallpaper") "1170x2532px" = false
    ∧ strContains (magicPromptInstruction "kot"
        "Aspect ratio: iphone_14_14pro_wallpaper") "iphone_14_14pro_wallpaper" = true
    ∧ strContains (styleInfluenceInstruction "kot"
        "Aspect ratio: iphone_14_14pro_wallpaper") "1170x2532px" = false := by
  refine ⟨rfl, rfl, by decide, by decide, by decide⟩

/-- C4: violating a submission precondition (empty trimmed idea for the
text-seeded flows, missing required image, invalid custom dimensions, empty
edit draft) leaves the whole state unchanged except for the inline
validation message, without entering any generating state; and the custom-
dimension validation judges ("0","100") invalid, ("1024","768") valid, and
an empty width invalid regardless of height. -/
theorem precondition_violation_inert (s : AppModel) (styleF : JsFile)
    (readA readB : Except Unit String) (qreply : Option (List RawQuestion))
    (dreply : Option String) (rreply : Option RawResultReply) :
    (jsTrim s.basicPrompt = "" →
      handleBasicPromptSubmit s qreply = { s with error := some basicPromptEmptyMsg })
    ∧ (jsTrim s.basicPrompt = "" →
      handleMagicPromptSubmit s readA rreply = { s with error := some magicEmptyPromptMsg })
    ∧ (jsTrim s.basicPrompt ≠ "" → submitCustomDimsInvalid s = true →
      handleMagicPromptSubmit s readA rreply = { s with error := some customDimsMsg })
    ∧ (s.subjectReferenceImageFile = none →
      handleGenerateDescriptionFromImage s readA dreply =
        { s with error := some "Najpierw prześlij obraz (Temat/Obiekt), aby wygenerować jego opis." })
    ∧ (s.subjectReferenceImageFile = none →
      handleCopyImageSubmit s readA rreply =
        { s with error := some "Najpierw prześlij obraz (Temat/Obiekt), który chcesz skopiować." })
    ∧ (s.styleReferenceImageFile = none →
      handleStyleInfluenceSubmit s readA readB rreply =
        { s with error := some "Aby zastosować wpływ stylu, prześlij 'Obraz Stylu Referencyjnego'." })
    ∧ (s.styleReferenceImageFile = some styleF → jsTrim s.basicPrompt = "" →
      s.subjectReferenceImageFile = none →
      handleStyleInfluenceSubmit s readA readB rreply =
        { s with error := some "Podaj 'Podstawowy pomysł/prompt' (może być po polsku lub angielsku) opisujący temat LUB prześlij 'Obraz Referencyjny (Temat/Obiekt)'. Wynikowy prompt będzie po angielsku." })
    ∧ (s.styleReferenceImageFile = some styleF →
      ¬(jsTrim s.basicPrompt = "" ∧ s.subjectReferenceImageFile = none) →
      submitCustomDimsInvalid s = true →
      handleStyleInfluenceSubmit s readA readB rreply =
        { s with error := some customDimsMsg })
    ∧ (jsTrim s.editedEnhancedPromptText = "" →
      handleSubmitRefinedPrompt s readA rreply =
        { s with error := some "Edytowany prompt nie może być pusty." })
    ∧ isCustomDimensionsInvalid "custom" "0" "100" = true
    ∧ isCustomDimensionsInvalid "custom" "1024" "768" = false
    ∧ (∀ ht : String, isCustomDimensionsInvalid "custom" "" ht = true) := by
  refine ⟨?_, ?_, ?_, ?_, ?_, ?_, ?_, ?_, ?_, by decide, by decide, ?_⟩
  · intro h
    simp [handleBasicPromptSubmit, h]
  · intro h
    simp [handleMagicPromptSubmit, h]
  · intro h hc
    simp [handleMagicPromptSubmit, h, hc]
  · intro h
    simp [handleGenerateDescriptionFromImage, h]
  · intro h
    simp [handleCopyImageSubmit, h]
  · intro h
    simp [handleStyleInfluenceSubmit, h]
  · intro h1 h2 h3
    simp [handleStyleInfluenceSubmit, h1, h2, h3]
  · intro h1 h2 h3
    simp [handleStyleInfluenceSubmit, h1, h2, h3]
  · intro h
    simp [handleSubmitRefinedPrompt, h]
  · intro ht
    unfold isCustomDimensionsInvalid
    rw [if_pos rfl, if_pos (Or.inl (by decide))]

/-- Witness for C4: submitting with an empty idea from the initial state
only sets the validation message. -/
theorem precondition_violation_inert_witness :
    handleBasicPromptSubmit initialModel none =
      { initialModel with error := some basicPromptEmptyMsg } :=
  (precondition_violation_inert initialModel oversizedJpeg (Except.ok "") (Except.ok "")
      none none none).1 (by decide)

/-- C6: an uploaded file is accepted and produces a preview exactly when
its declared MIME type is allow-listed and its size is at most 5 MB; a
disallowed type gets the format message, an allowed but oversized file the
size message; in both rejection cases the targeted slot (file and preview)
is cleared; and the interaction state never changes. -/
theorem image_upload_validation (f : JsFile) (readerResult : String)
    (slot : ImageSlot) (s : AppModel) :
    (ALLOWED_IMAGE_TYPES.contains f.type = true →
      f.size ≤ MAX_IMAGE_SIZE_MB * 1024 * 1024 →
      handleImageUpload (some f) readerResult slot s =
          setSlot slot f readerResult { s with error := none }
        ∧ slotPreview slot (handleImageUpload (some f) readerResult slot s) =
            some readerResult
        ∧ slotFile slot (handleImageUpload (some f) readerResult slot s) = some f)
    ∧ (ALLOWED_IMAGE_TYPES.contains f.type = false →
      handleImageUpload (some f) readerResult slot s =
        clearSlot slot { s with error := some (invalidFormatMsg f.name) })
    ∧ (ALLOWED_IMAGE_TYPES.contains f.type = true →
      f.size > MAX_IMAGE_SIZE_MB * 1024 * 1024 →
      handleImageUpload (some f) readerResult slot s =
        clearSlot slot { s with error := some (tooLargeMsg f.name) })
    ∧ ((ALLOWED_IMAGE_TYPES.contains f.type = false ∨
        f.size > MAX_IMAGE_SIZE_MB * 1024 * 1024) →
      slotFile slot (handleImageUpload (some f) readerResult slot s) = none
      ∧ slotPreview slot (handleImageUpload (some f) readerResult slot s) = none)
    ∧ (handleImageUpload (some f) readerResult slot s).appState = s.appState := by
  refine ⟨fun hct hsz => ?_, fun hcf => ?_, fun hct hsz => ?_, fun hor => ?_, ?_⟩
  · have hm : f.type ∈ ALLOWED_IMAGE_TYPES := by simpa using hct
    have h2 : ¬ (f.size > MAX_IMAGE_SIZE_MB * 1024 * 1024) := by omega
    refine ⟨?_, ?_, ?_⟩ <;>
      cases slot <;>
        simp [handleImageUpload, setSlot, slotPreview, slotFile, hm, h2]
  · have hnm : f.type ∉ ALLOWED_IMAGE_TYPES := by simpa using hcf
    cases slot <;> simp [handleImageUpload, clearSlot, hnm]
  · have hm : f.type ∈ ALLOWED_IMAGE_TYPES := by simpa using hct
    cases slot <;> simp [handleImageUpload, clearSlot, hm, hsz]
  · rcases hor with hcf | hsz
    · have hnm : f.type ∉ ALLOWED_IMAGE_TYPES := by simpa using hcf
      cases slot <;>
        simp [handleImageUpload, clearSlot, slotFile, slotPreview, hnm]
    · by_cases hm : f.type ∈ ALLOWED_IMAGE_TYPES
      · cases slot <;>
          simp [handleImageUpload, clearSlot, slotFile, slotPreview, hm, hsz]
      · cases slot <;>
          simp [handleImageUpload, clearSlot, slotFile, slotPreview, hm]
  · by_cases hm : f.type ∈ ALLOWED_IMAGE_TYPES
    · by_cases hs2 : f.size > MAX_IMAGE_SIZE_MB * 1024 * 1024
      · cases slot <;> simp [handleImageUpload, clearSlot, hm, hs2]
      · cases slot <;> simp [handleImageUpload, setSlot, clearSlot, hm, hs2]
    · cases slot <;> simp [handleImageUpload, clearSlot, hm]

/-- Witness for C6: a JPEG of exactly 5 MB + 1 byte is rejected with the
size-specific message and the subject slot cleared. -/
theorem image_upload_validation_witness :
    handleImageUpload (some oversizedJpeg) "data:url" ImageSlot.subject initialModel =
      clearSlot ImageSlot.subject
        { initialModel with error := some (tooLargeMsg oversizedJpeg.name) } :=
  (image_upload_validation oversizedJpeg "data:url" ImageSlot.subject initialModel).2.2.1
    (by decide) (by decide)

end Enhancer
